import Mathlib

/-!
Shallow embedding of `cl/search/api_views.py` from the courtlistener
repository.

The file under verification is declarative Django REST framework wiring:
nine model viewsets (one per ORM model) plus one hand-written search
viewset whose `list` method binds a search form, delegates to
`api_utils.get_object_list`, paginates and serializes.

The embedding has two layers:

1. a record (`ViewSetDecl`) transcribing the class-level declarations of
   every viewset in the file (base class, mixins, serializer, filter
   class, permission classes, ordering fields, and the shape of the
   queryset built by `get_queryset`), with `fileViewsets` listing all ten
   classes in source order;

2. an executable embedding of the two methods in the file that contain
   logic: `CourtViewSet.get_queryset` (an `exclude` over the Court table)
   and `SearchViewSet.list` (parametrised over its external
   collaborators, which the spec places out of scope).
-/

namespace ApiViews

/-! ## Declarative layer: class-level attributes of each viewset -/

/-- The DRF base class a viewset derives from: `viewsets.ModelViewSet`
or the bare `viewsets.ViewSet`. -/
inductive BaseClass where
  | modelViewSet
  | viewSet
deriving DecidableEq, Repr

/-- Which database alias a `get_queryset` body selects with `.using(...)`:
the replica returned by `get_api_read_db()` or the implicit default. -/
inductive DbSource where
  | fromApiReadDb
  | defaultDb
deriving DecidableEq, Repr

/-- Transcription of one `get_queryset` body: the model it queries, the
database routing call, the `select_related` and `prefetch_related`
eager-loading hints, and whether a trailing `.order_by()` clears the
default ordering. -/
structure QuerysetDecl where
  model : String
  db : DbSource
  select_related : List String
  prefetch_related : List String
  order_by_cleared : Bool
deriving DecidableEq, Repr

/-- Transcription of one viewset class declaration from
`cl/search/api_views.py`. `permission_classes` is `none` when the class
does not set the attribute (the framework default applies);
`serializer_class` likewise. `overridden_handlers` lists the HTTP action
handlers the class itself defines (`get_queryset` is not an action
handler). -/
structure ViewSetDecl where
  name : String
  base : BaseClass
  mixins : List String
  serializer_class : Option String
  filter_class : Option String
  permission_classes : Option (List String)
  ordering_fields : List String
  queryset : Option QuerysetDecl
  overridden_handlers : List String
deriving DecidableEq, Repr

def OriginatingCourtInformationViewSet : ViewSetDecl where
  name := "OriginatingCourtInformationViewSet"
  base := .modelViewSet
  mixins := []
  serializer_class := some "OriginalCourtInformationSerializer"
  filter_class := none
  permission_classes := none
  ordering_fields := []
  queryset := some
    { model := "OriginatingCourtInformation"
      db := .fromApiReadDb
      select_related := []
      prefetch_related := []
      order_by_cleared := false }
  overridden_handlers := []

def DocketViewSet : ViewSetDecl where
  name := "DocketViewSet"
  base := .modelViewSet
  mixins := ["LoggingMixin"]
  serializer_class := some "DocketSerializer"
  filter_class := some "DocketFilter"
  permission_classes := none
  ordering_fields :=
    ["date_created", "date_modified", "date_argued", "date_reargued",
     "date_reargument_denied", "date_blocked", "date_cert_granted",
     "date_cert_denied", "date_filed", "date_terminated",
     "date_last_filing"]
  queryset := some
    { model := "Docket"
      db := .fromApiReadDb
      select_related :=
        ["court", "assigned_to", "referred_to",
         "originating_court_information", "idb_data"]
      prefetch_related := ["panel", "clusters", "audio_files", "tags"]
      order_by_cleared := false }
  overridden_handlers := []

def DocketEntryViewSet : ViewSetDecl where
  name := "DocketEntryViewSet"
  base := .modelViewSet
  mixins := ["LoggingMixin"]
  serializer_class := some "DocketEntrySerializer"
  filter_class := some "DocketEntryFilter"
  permission_classes := some ["RECAPUsersReadOnly"]
  ordering_fields := ["date_created", "date_modified", "date_filed"]
  queryset := some
    { model := "DocketEntry"
      db := .fromApiReadDb
      select_related := ["docket"]
      prefetch_related := ["recap_documents", "recap_documents__tags", "tags"]
      order_by_cleared := true }
  overridden_handlers := []

def RECAPDocumentViewSet : ViewSetDecl where
  name := "RECAPDocumentViewSet"
  base := .modelViewSet
  mixins := ["LoggingMixin", "CacheListMixin"]
  serializer_class := some "RECAPDocumentSerializer"
  filter_class := some "RECAPDocumentFilter"
  permission_classes := some ["RECAPUsersReadOnly"]
  ordering_fields := ["date_created", "date_modified", "date_upload"]
  queryset := some
    { model := "RECAPDocument"
      db := .fromApiReadDb
      select_related := ["docket_entry", "docket_entry__docket"]
      prefetch_related := ["tags"]
      order_by_cleared := true }
  overridden_handlers := []

def CourtViewSet : ViewSetDecl where
  name := "CourtViewSet"
  base := .modelViewSet
  mixins := ["LoggingMixin"]
  serializer_class := some "CourtSerializer"
  filter_class := some "CourtFilter"
  permission_classes := none
  ordering_fields := ["date_modified", "position", "start_date", "end_date"]
  queryset := some
    { model := "Court"
      db := .fromApiReadDb
      select_related := []
      prefetch_related := []
      order_by_cleared := false }
  overridden_handlers := []

def OpinionClusterViewSet : ViewSetDecl where
  name := "OpinionClusterViewSet"
  base := .modelViewSet
  mixins := ["LoggingMixin"]
  serializer_class := some "OpinionClusterSerializer"
  filter_class := some "OpinionClusterFilter"
  permission_classes := none
  ordering_fields :=
    ["date_created", "date_modified", "date_filed", "citation_count",
     "date_blocked"]
  queryset := some
    { model := "OpinionCluster"
      db := .fromApiReadDb
      select_related := []
      prefetch_related :=
        ["sub_opinions", "panel", "non_participating_judges", "citations"]
      order_by_cleared := false }
  overridden_handlers := []

def OpinionViewSet : ViewSetDecl where
  name := "OpinionViewSet"
  base := .modelViewSet
  mixins := ["LoggingMixin"]
  serializer_class := some "OpinionSerializer"
  filter_class := some "OpinionFilter"
  permission_classes := none
  ordering_fields := ["id", "date_created", "date_modified"]
  queryset := some
    { model := "Opinion"
      db := .fromApiReadDb
      select_related := ["cluster", "author"]
      prefetch_related := ["opinions_cited", "joined_by"]
      order_by_cleared := false }
  overridden_handlers := []

def OpinionsCitedViewSet : ViewSetDecl where
  name := "OpinionsCitedViewSet"
  base := .modelViewSet
  mixins := ["LoggingMixin"]
  serializer_class := some "OpinionsCitedSerializer"
  filter_class := some "OpinionsCitedFilter"
  permission_classes := none
  ordering_fields := []
  queryset := some
    { model := "OpinionsCited"
      db := .fromApiReadDb
      select_related := []
      prefetch_related := []
      order_by_cleared := false }
  overridden_handlers := []

def TagViewSet : ViewSetDecl where
  name := "TagViewSet"
  base := .modelViewSet
  mixins := ["LoggingMixin"]
  serializer_class := some "TagSerializer"
  filter_class := none
  permission_classes := some ["RECAPUsersReadOnly"]
  ordering_fields := []
  queryset := some
    { model := "Tag"
      db := .fromApiReadDb
      select_related := []
      prefetch_related := []
      order_by_cleared := false }
  overridden_handlers := []

/-- Declaration of `SearchViewSet`: it derives from the bare `viewsets.ViewSet` and wires no
model queryset and no class-level serializer; its only HTTP handler is
the hand-written `list` method (embedded below). -/
def SearchViewSet : ViewSetDecl where
  name := "SearchViewSet"
  base := .viewSet
  mixins := ["LoggingMixin"]
  serializer_class := none
  filter_class := none
  permission_classes := some ["permissions.AllowAny"]
  ordering_fields := []
  queryset := none
  overridden_handlers := ["list"]

/-- All viewset classes defined in `cl/search/api_views.py`, in source
order. -/
def fileViewsets : List ViewSetDecl :=
  [OriginatingCourtInformationViewSet, DocketViewSet, DocketEntryViewSet,
   RECAPDocumentViewSet, CourtViewSet, OpinionClusterViewSet,
   OpinionViewSet, OpinionsCitedViewSet, TagViewSet, SearchViewSet]

/-- A viewset is a per-model endpoint when it builds a model queryset. -/
def isPerModel (v : ViewSetDecl) : Bool :=
  v.queryset.isSome

/-- The HTTP action handlers a DRF base class provides by itself:
`ModelViewSet` bundles the full CRUD handler set; the bare `ViewSet`
provides none. -/
def providedHandlers : BaseClass → List String
  | .modelViewSet =>
      ["list", "retrieve", "create", "update", "partial_update", "destroy"]
  | .viewSet => []

/-- The handler set the spec means by list/retrieve/create/update/delete. -/
def crudHandlers : List String :=
  ["list", "retrieve", "create", "update", "destroy"]

/-- A viewset declares eager-loading hints when its queryset carries a
`select_related` or `prefetch_related` clause. -/
def hasEagerLoading (v : ViewSetDecl) : Bool :=
  match v.queryset with
  | some qs => !qs.select_related.isEmpty || !qs.prefetch_related.isEmpty
  | none => false

/-! ## Functional layer: `CourtViewSet.get_queryset`

`Court.objects.using(get_api_read_db()).exclude(jurisdiction=Court.TESTING_COURT)`
is embedded as a row filter over the Court table of whichever database
the router selected. -/

/-- A row of the external `Court` model, reduced to the fields this file
touches. -/
structure Court where
  id : String
  jurisdiction : String
deriving DecidableEq, Repr

/-- The jurisdiction code of testing courts, a constant of the external
`Court` model (`cl/search/models.py`); its concrete value is immaterial
to this file, which only compares against it. -/
def Court.TESTING_COURT : String := "T"

/-- Django `exclude(jurisdiction=j)`: drop every row whose jurisdiction
equals `j`. -/
def excludeJurisdiction (table : List Court) (j : String) : List Court :=
  table.filter (fun c => !(c.jurisdiction == j))

namespace CourtViewSetImpl

/-- Embedding of `CourtViewSet.get_queryset`: the Court table of the API read
database with testing courts excluded. -/
def get_queryset (table : List Court) : List Court :=
  excludeJurisdiction table Court.TESTING_COURT

end CourtViewSetImpl

/-! ## Functional layer: `SearchViewSet.list`

The collaborators of the search endpoint (`SearchForm`, `api_utils.get_object_list`,
the `paginate_queryset` method of the paginator, `SearchResultSerializer`) are external
to the file; they are abstracted as a record of functions, and `list` is the
composition the source writes over them. -/

/-- Query parameters of a request (`request.GET`). -/
structure Request where
  GET : List (String × String)
deriving DecidableEq, Repr

/-- Cleaned data of the search form (`cleaned_data`): the query string field `q` plus the
remaining cleaned fields, which this file passes through opaquely. -/
structure CleanedData where
  q : String
  rest : List (String × String)
deriving DecidableEq, Repr

/-- Field-level validation errors (`form.errors`), a mapping from field
name to messages. -/
structure FormErrors where
  fields : List (String × List String)
deriving DecidableEq, Repr

/-- Outcome of binding `SearchForm(request.GET)` and calling
`is_valid()`: either `cleaned_data` or `errors`. -/
inductive FormOutcome where
  | valid (cd : CleanedData)
  | invalid (errors : FormErrors)
deriving DecidableEq, Repr

/-- A fresh `pagination.PageNumberPagination()` instance. -/
structure PageNumberPagination where
deriving DecidableEq, Repr

def PageNumberPagination.new : PageNumberPagination := {}

/-- A serialized search result (opaque payload). -/
structure SerializedResult where
  payload : List (String × String)
deriving DecidableEq, Repr

/-- One raw search result from the object list (opaque payload). -/
structure SearchResult where
  payload : List (String × String)
deriving DecidableEq, Repr

/-- The search connection carried by the object list; `list` reads its
`schema`. -/
structure Conn where
  schema : String
deriving DecidableEq, Repr

/-- The object list returned by `api_utils.get_object_list`: a sliceable
result sequence plus its search connection (`sl.conn`). -/
structure ObjectList where
  items : List SearchResult
  conn : Conn
deriving DecidableEq, Repr

/-- A response body: either the validation errors of the form or the
serialized results wrapped by `get_paginated_response`. -/
inductive ResponseBody where
  | validationErrors (errors : FormErrors)
  | paginated (results : List SerializedResult)
deriving DecidableEq, Repr

/-- An HTTP response: status code and body. -/
structure Response where
  status : Nat
  body : ResponseBody
deriving DecidableEq, Repr

/-- Constant `status.HTTP_400_BAD_REQUEST`. -/
def HTTP_400_BAD_REQUEST : Nat := 400

/-- Framework method `paginator.get_paginated_response(data)`: wraps the
serialized page in a 200 response. -/
def PageNumberPagination.get_paginated_response
    (_p : PageNumberPagination) (data : List SerializedResult) : Response :=
  { status := 200, body := .paginated data }

/-- The external collaborators `SearchViewSet.list` composes, abstracted
as functions: form binding and validation, the object-list builder, the
queryset slicing of the paginator, and the result serializer. -/
structure SearchCollaborators where
  searchForm : List (String × String) → FormOutcome
  get_object_list :
    Request → CleanedData → PageNumberPagination → ObjectList
  paginate_queryset :
    PageNumberPagination → ObjectList → Request → List SearchResult
  serialize : List SearchResult → String → List SerializedResult

/-- One step of `SearchViewSet.list`, recorded in execution order with
the argument of interest: which collaborator was invoked, or which
response was built. -/
inductive Step where
  | bindForm (params : List (String × String))
  | isValid (ok : Bool)
  | callGetObjectList (cd : CleanedData) (p : PageNumberPagination)
  | callPaginateQueryset (p : PageNumberPagination)
  | callSerialize (schema : String)
  | buildPaginatedResponse (p : PageNumberPagination)
  | buildErrorResponse (st : Nat)
deriving DecidableEq, Repr

namespace SearchViewSetImpl

/-- Embedding of `SearchViewSet.list(request)`, instrumented: returns the response
together with the ordered trace of the steps the body performs.
Transcribed from `cl/search/api_views.py` lines 157-179: bind
`SearchForm(request.GET)`; if valid, take `cleaned_data`, replace an
empty `q` with `"*"`, build a fresh page-number paginator, call
`api_utils.get_object_list(request, cd, paginator)`, slice the page with
`paginator.paginate_queryset(sl, request)`, serialize it with the
schema of the connection in context, and wrap it with
`paginator.get_paginated_response`; otherwise answer 400 with
`form.errors`. -/
def listRun (C : SearchCollaborators) (request : Request) :
    Response × List Step :=
  match C.searchForm request.GET with
  | .valid cd0 =>
      let cd := if cd0.q = "" then { cd0 with q := "*" } else cd0
      let paginator := PageNumberPagination.new
      let sl := C.get_object_list request cd paginator
      let result_page := C.paginate_queryset paginator sl request
      let data := C.serialize result_page sl.conn.schema
      (paginator.get_paginated_response data,
       [.bindForm request.GET, .isValid true,
        .callGetObjectList cd paginator, .callPaginateQueryset paginator,
        .callSerialize sl.conn.schema, .buildPaginatedResponse paginator])
  | .invalid errs =>
      ({ status := HTTP_400_BAD_REQUEST, body := .validationErrors errs },
       [.bindForm request.GET, .isValid false,
        .buildErrorResponse HTTP_400_BAD_REQUEST])

/-- The response component of `SearchViewSet.list`. -/
def list (C : SearchCollaborators) (request : Request) : Response :=
  (listRun C request).1

end SearchViewSetImpl

/-- A concrete instantiation of the external collaborators, used to
evaluate the endpoint on closed inputs: an empty parameter list binds to
a valid form with empty `q`, a single `q` parameter binds to a valid
form with that query, and anything else fails validation. -/
def demoCollaborators : SearchCollaborators where
  searchForm := fun params =>
    match params with
    | [] => .valid { q := "", rest := [] }
    | [("q", v)] => .valid { q := v, rest := [] }
    | _ => .invalid { fields := [("q", ["Select a valid choice."])] }
  get_object_list := fun _ cd _ =>
    { items := [{ payload := [("q", cd.q)] }], conn := { schema := "search" } }
  paginate_queryset := fun _ sl _ => sl.items
  serialize := fun page schema =>
    page.map fun r => { payload := ("schema", schema) :: r.payload }

end ApiViews

namespace ApiViews

open SearchViewSetImpl

/-! ## Claims -/

/-- C1: for every GET request to the search endpoint, `SearchViewSet.list`
returns an HTTP 400 response whose body is the field-level validation
errors of the search form if and only if the form built from the query
parameters is invalid; otherwise (form valid) it returns a paginated
response of serialized search results. -/
theorem C1_search_400_iff_invalid
    (C : SearchCollaborators) (request : Request) :
    ((∃ errs, C.searchForm request.GET = FormOutcome.invalid errs ∧
        list C request =
          { status := HTTP_400_BAD_REQUEST
            body := ResponseBody.validationErrors errs }) ↔
      (∃ errs, C.searchForm request.GET = FormOutcome.invalid errs)) ∧
    (∀ cd, C.searchForm request.GET = FormOutcome.valid cd →
      ∃ data, list C request =
        { status := 200, body := ResponseBody.paginated data }) := by
  constructor
  · constructor
    · rintro ⟨errs, hf, _⟩
      exact ⟨errs, hf⟩
    · rintro ⟨errs, hf⟩
      refine ⟨errs, hf, ?_⟩
      simp [list, listRun, hf]
  · intro cd hf
    simp only [list, listRun, hf, PageNumberPagination.get_paginated_response]
    exact ⟨_, rfl⟩

/-- Witness for C1: with the demo collaborators, the empty query string
binds to a valid form and the endpoint answers 200 with paginated
results. -/
theorem C1_search_400_iff_invalid_witness :
    ∃ data, list demoCollaborators { GET := [] } =
      { status := 200, body := ResponseBody.paginated data } :=
  (C1_search_400_iff_invalid demoCollaborators { GET := [] }).2
    { q := "", rest := [] } (by decide)

/-- C2: for every request whose search form validates, `SearchViewSet.list`
performs exactly these steps in order — bind the query parameters to the
search form, validate it, pass the cleaned data together with a fresh
page-number paginator to `api_utils.get_object_list`, paginate the
resulting object list with that same paginator, serialize the resulting
page, and return the paginated response of the serialized data built by
that same paginator. -/
theorem C2_valid_path_steps
    (C : SearchCollaborators) (request : Request) (cd0 : CleanedData)
    (hv : C.searchForm request.GET = FormOutcome.valid cd0) :
    listRun C request =
      (let cd := if cd0.q = "" then { cd0 with q := "*" } else cd0
       let paginator := PageNumberPagination.new
       let sl := C.get_object_list request cd paginator
       (paginator.get_paginated_response
          (C.serialize (C.paginate_queryset paginator sl request)
            sl.conn.schema),
        [Step.bindForm request.GET, Step.isValid true,
         Step.callGetObjectList cd paginator,
         Step.callPaginateQueryset paginator,
         Step.callSerialize sl.conn.schema,
         Step.buildPaginatedResponse paginator])) := by
  simp [listRun, hv]

/-- Witness for C2: the valid-path equation evaluated with the demo
collaborators on the empty parameter list. -/
theorem C2_valid_path_steps_witness :
    listRun demoCollaborators { GET := [] } =
      (let cd :=
        if ({ q := "", rest := [] } : CleanedData).q = "" then
          { ({ q := "", rest := [] } : CleanedData) with q := "*" }
        else { q := "", rest := [] }
       let paginator := PageNumberPagination.new
       let sl := demoCollaborators.get_object_list { GET := [] } cd paginator
       (paginator.get_paginated_response
          (demoCollaborators.serialize
            (demoCollaborators.paginate_queryset paginator sl { GET := [] })
            sl.conn.schema),
        [Step.bindForm [], Step.isValid true,
         Step.callGetObjectList cd paginator,
         Step.callPaginateQueryset paginator,
         Step.callSerialize sl.conn.schema,
         Step.buildPaginatedResponse paginator])) :=
  C2_valid_path_steps demoCollaborators { GET := [] }
    { q := "", rest := [] } (by decide)

/-- C3: `api_utils.get_object_list` is never invoked from this endpoint
with an empty query string — an empty cleaned `q` is replaced by the
wildcard before delegation — and when the cleaned `q` is non-empty the
cleaned data is delegated unchanged. -/
theorem C3_empty_q_replaced
    (C : SearchCollaborators) (request : Request) :
    (∀ cd p, Step.callGetObjectList cd p ∈ (listRun C request).2 →
      cd.q ≠ "") ∧
    (∀ cd0, C.searchForm request.GET = FormOutcome.valid cd0 →
      Step.callGetObjectList
          (if cd0.q = "" then { cd0 with q := "*" } else cd0)
          PageNumberPagination.new ∈ (listRun C request).2 ∧
        (cd0.q = "" →
          (if cd0.q = "" then { cd0 with q := "*" } else cd0) =
            { cd0 with q := "*" }) ∧
        (cd0.q ≠ "" →
          (if cd0.q = "" then { cd0 with q := "*" } else cd0) = cd0)) := by
  cases hf : C.searchForm request.GET with
  | valid cd0 =>
      constructor
      · intro cd p hmem
        simp [listRun, hf] at hmem
        obtain ⟨rfl, -⟩ := hmem
        by_cases hq : cd0.q = "" <;> simp [hq]
      · intro cd1 hv
        obtain rfl := FormOutcome.valid.inj hv
        refine ⟨?_, fun hq => by simp [hq], fun hq => by simp [hq]⟩
        simp [listRun, hf]
  | invalid errs =>
      constructor
      · intro cd p hmem
        simp [listRun, hf] at hmem
      · intro cd1 hv
        simp at hv

/-- Witness for C3: with the demo collaborators, the query `q=foo`
validates with a non-empty `q`, so the cleaned data is delegated
unchanged and its query is non-empty. -/
theorem C3_empty_q_replaced_witness :
    (Step.callGetObjectList
        (if ({ q := "foo", rest := [] } : CleanedData).q = "" then
          { ({ q := "foo", rest := [] } : CleanedData) with q := "*" }
        else { q := "foo", rest := [] })
        PageNumberPagination.new ∈
      (listRun demoCollaborators { GET := [("q", "foo")] }).2 ∧
      (({ q := "foo", rest := [] } : CleanedData).q = "" →
        (if ({ q := "foo", rest := [] } : CleanedData).q = "" then
          { ({ q := "foo", rest := [] } : CleanedData) with q := "*" }
        else { q := "foo", rest := [] }) =
          { ({ q := "foo", rest := [] } : CleanedData) with q := "*" }) ∧
      (({ q := "foo", rest := [] } : CleanedData).q ≠ "" →
        (if ({ q := "foo", rest := [] } : CleanedData).q = "" then
          { ({ q := "foo", rest := [] } : CleanedData) with q := "*" }
        else { q := "foo", rest := [] }) = { q := "foo", rest := [] })) :=
  (C3_empty_q_replaced demoCollaborators { GET := [("q", "foo")] }).2
    { q := "foo", rest := [] } (by decide)

/-- C4 counterexample: `OriginatingCourtInformationViewSet` is a viewset
of this file that declares no filter class, no permission classes, and a
queryset without any eager-loading hint, so it is not true that every
viewset in the file selects a serializer, a filter class, permission
classes, and a queryset with eager-loading hints. -/
theorem C4_counterexample :
    OriginatingCourtInformationViewSet ∈ fileViewsets ∧
    OriginatingCourtInformationViewSet.filter_class = none ∧
    OriginatingCourtInformationViewSet.permission_classes = none ∧
    hasEagerLoading OriginatingCourtInformationViewSet = false := by
  decide

/-- C4 (amended): every model viewset in the file selects a serializer
and defines a queryset, but a filter class, explicit permission classes,
and eager-loading hints are each absent from at least one viewset. -/
theorem C4_declarative_wiring :
    (fileViewsets.all fun v =>
      !(isPerModel v) ||
        (v.serializer_class.isSome && v.queryset.isSome)) = true ∧
    (fileViewsets.any fun v => v.filter_class.isNone) = true ∧
    (fileViewsets.any fun v => v.permission_classes.isNone) = true ∧
    (fileViewsets.any fun v =>
      isPerModel v && !(hasEagerLoading v)) = true := by
  decide

/-- C5 counterexample: `TagViewSet` is a per-model viewset of this file
with neither a filter class nor ordering fields, so it is not true that
every model viewset declares both. -/
theorem C5_counterexample :
    TagViewSet ∈ fileViewsets ∧
    isPerModel TagViewSet = true ∧
    TagViewSet.filter_class = none ∧
    TagViewSet.ordering_fields = [] := by
  decide

/-- C5 (amended): among the model viewsets, a filter class is declared
by exactly those other than `OriginatingCourtInformationViewSet` and
`TagViewSet`, and ordering fields by exactly those other than
`OriginatingCourtInformationViewSet`, `OpinionsCitedViewSet` and
`TagViewSet`; pagination is framework-provided for all. -/
theorem C5_filter_ordering_coverage :
    (fileViewsets.all fun v =>
      !(isPerModel v) ||
        (v.filter_class.isSome ==
          !(v.name == "OriginatingCourtInformationViewSet" ||
            v.name == "TagViewSet"))) = true ∧
    (fileViewsets.all fun v =>
      !(isPerModel v) ||
        (!(v.ordering_fields.isEmpty) ==
          !(v.name == "OriginatingCourtInformationViewSet" ||
            v.name == "OpinionsCitedViewSet" ||
            v.name == "TagViewSet"))) = true := by
  decide

/-- C6: every per-model endpoint in the file is a model viewset, and the
model viewset base class exposes the full CRUD handler set — list,
retrieve, create, update, and delete. -/
theorem C6_per_model_full_crud :
    (fileViewsets.all fun v =>
      !(isPerModel v) ||
        ((v.base == BaseClass.modelViewSet) &&
          crudHandlers.all fun a =>
            (providedHandlers v.base).contains a)) = true := by
  decide

/-- C7: every court in the queryset built by `CourtViewSet.get_queryset`
has a jurisdiction different from `Court.TESTING_COURT`, whatever the
Court table holds, so no test court appears in any result served through
this viewset. -/
theorem C7_no_testing_courts
    (table : List Court) (c : Court)
    (hc : c ∈ CourtViewSetImpl.get_queryset table) :
    c.jurisdiction ≠ Court.TESTING_COURT := by
  have h := List.mem_filter.mp hc
  simpa using h.2

/-- Witness for C7: a federal court in a concrete two-row table survives
the exclusion and indeed has a non-testing jurisdiction. -/
theorem C7_no_testing_courts_witness :
    ({ id := "scotus", jurisdiction := "F" } : Court).jurisdiction ≠
      Court.TESTING_COURT :=
  C7_no_testing_courts
    [{ id := "scotus", jurisdiction := "F" },
     { id := "test", jurisdiction := "T" }]
    { id := "scotus", jurisdiction := "F" } (by decide)

/-- C8: every `get_queryset` body in the file routes its query through
`get_api_read_db()`, never the default database. -/
theorem C8_all_querysets_read_db :
    (fileViewsets.all fun v =>
      match v.queryset with
      | some qs => qs.db == DbSource.fromApiReadDb
      | none => true) = true := by
  decide

/-- C9: the only error response constructed by code in this file is the
400 of the search endpoint on form validation failure: no other viewset
overrides an action handler, and whenever `SearchViewSet.list` answers
with an error status the response is exactly the 400 carrying the
validation errors of an invalid form. -/
theorem C9_only_error_is_search_400 :
    ((fileViewsets.all fun v =>
      v.overridden_handlers.isEmpty || (v.name == "SearchViewSet")) =
      true) ∧
    ∀ (C : SearchCollaborators) (request : Request),
      HTTP_400_BAD_REQUEST ≤ (list C request).status →
      ∃ errs, C.searchForm request.GET = FormOutcome.invalid errs ∧
        list C request =
          { status := HTTP_400_BAD_REQUEST
            body := ResponseBody.validationErrors errs } := by
  refine ⟨by decide, ?_⟩
  intro C request hst
  cases hf : C.searchForm request.GET with
  | valid cd0 =>
      exfalso
      simp [list, listRun, hf, PageNumberPagination.get_paginated_response,
        HTTP_400_BAD_REQUEST] at hst
  | invalid errs =>
      exact ⟨errs, rfl, by simp [list, listRun, hf]⟩

/-- Witness for C9: with the demo collaborators, a two-parameter query
fails validation, the status is 400, and the theorem yields the invalid
form and its error body. -/
theorem C9_only_error_is_search_400_witness :
    ∃ errs,
      demoCollaborators.searchForm
        (Request.mk [("q", "x"), ("type", "o")]).GET =
        FormOutcome.invalid errs ∧
      list demoCollaborators { GET := [("q", "x"), ("type", "o")] } =
        { status := HTTP_400_BAD_REQUEST
          body := ResponseBody.validationErrors errs } :=
  C9_only_error_is_search_400.2 demoCollaborators
    { GET := [("q", "x"), ("type", "o")] } (by decide)

end ApiViews
